import Mathlib

/-!
Verification development for the worker communication and streaming protocol of
the repository. Two near-duplicate controller implementations exist:

* `src/unnamed/part_000` (a React `ChatWindow` component with `handlePDFUpload`,
  `handleSendMessage` and `queryLLM`), embedded below in namespace `P0`;
* `src/components/ChatWindow.tsx` (a React `ChatWindow` component with
  `queryModel`, `sendMessage` and a `choosePDFComponent` view), embedded below
  in namespace `CW`.

The embedding translates the event-handling code directly: the worker boundary
is a list of posted requests plus a feed of incoming `WorkerEvent`s; every
`addEventListener` call appends a listener to a registry and an incoming event
is processed by every registered listener in registration order, which is the
DOM `dispatchEvent` semantics the code relies on; the `toast` calls of
react-toastify are modelled as a registry of toast records (`toast.update` on a
dismissed or unknown id is a no-op, `toast.dismiss` marks the toast dismissed).
React `useState` setters and `useRef` cells become fields of an explicit
component state record.
-/

/-- Message role, from the `ChatWindowMessage` schema used by both components. -/
inductive Role where
  | human
  | ai
deriving DecidableEq, Repr

/-- A chat message, from the `ChatWindowMessage` schema: a role and a content
string. -/
structure ChatWindowMessage where
  role : Role
  content : String
deriving DecidableEq, Repr

/-- An event arriving from the worker. The tags are exactly the `e.data.type`
strings the two components switch on: `init_progress` (carrying a progress
ratio), `chunk` (carrying a text fragment), `complete`, `error` (carrying a
message string) and `log`. -/
inductive WorkerEvent where
  | init_progress (progress : ℚ)
  | chunk (data : String)
  | complete
  | error (message : String)
  | log (data : String)
deriving DecidableEq, Repr

/-- A toast notification record: the react-toastify widget state the components
drive through `toast(...)`, `toast.update` and `toast.dismiss`. -/
structure Toast where
  id : Nat
  text : String
  progress : Option ℚ
  dismissed : Bool
deriving DecidableEq, Repr

/-- `toast.update(tid, progress p)`: updates the progress of the toast with
id `tid` in place; a dismissed or unknown id is a no-op. -/
def updateToastProgress (ts : List Toast) (tid : Nat) (p : ℚ) : List Toast :=
  ts.map fun t => if t.id == tid && !t.dismissed then { t with progress := some p } else t

/-- `toast.dismiss(tid)`: marks the toast with id `tid` dismissed. -/
def dismissToast (ts : List Toast) (tid : Nat) : List Toast :=
  ts.map fun t => if t.id == tid then { t with dismissed := true } else t

/-- `toast.dismiss()` with no id (reached when the stored toast id is still
null): dismisses every toast. -/
def dismissAllToasts (ts : List Toast) : List Toast :=
  ts.map fun t => { t with dismissed := true }

/-- Replace the element at an index of a list, leaving other positions and
out-of-range indices untouched. -/
def listModify {α : Type} (f : α → α) : Nat → List α → List α
  | _, [] => []
  | 0, x :: xs => f x :: xs
  | n + 1, x :: xs => x :: listModify f n xs

namespace P0

/-- A request posted to the worker by `src/unnamed/part_000`: either
`postMessage(pdf selectedPDF)` from `handlePDFUpload` or
`postMessage(messages)` from `queryLLM`. -/
inductive WorkerRequest where
  | embed (pdf : String)
  | query (messages : List ChatWindowMessage)
deriving DecidableEq, Repr

/-- A listener registered on the worker with `addEventListener("message", ...)`.
`pdfUpload` is the closure registered by `handlePDFUpload`; `query k` is the
closure registered by `queryLLM` inside the `start` callback of the
`ReadableStream`, writing to stream number `k`. The code never calls
`removeEventListener`, so these only accumulate. -/
inductive Listener where
  | pdfUpload
  | query (stream : Nat)
deriving DecidableEq, Repr

/-- The state of one `ReadableStream` controller created by `queryLLM`:
`live` while open (holding the fragments enqueued so far), `closed` after
`controller.close()`, `errored` after `controller.error(...)` (which discards
any queued fragments). `enqueue` or `close` on a non-live stream throws inside
the listener and leaves the stream unchanged. -/
inductive StreamState where
  | live (fragments : List String)
  | closed (fragments : List String)
  | errored (message : String)
deriving DecidableEq, Repr

/-- `controller.enqueue(d)`. -/
def streamEnqueue (d : String) : StreamState → StreamState
  | .live fs => .live (fs ++ [d])
  | s => s

/-- `controller.close()`. -/
def streamClose : StreamState → StreamState
  | .live fs => .closed fs
  | s => s

/-- `controller.error(new Error(m))`. -/
def streamError (m : String) : StreamState → StreamState
  | .live _ => .errored m
  | s => s

/-- The component state of the `ChatWindow` in `src/unnamed/part_000`:
the `useState` values (`messages`, `input`, `isLoading`, `selectedPDF`,
`readyToChat`), the `toastId` ref, and the worker-side observables: registered
listeners, the streams created by `queryLLM`, the toast registry, and the list
of requests posted to the worker. -/
structure State where
  messages : List ChatWindowMessage
  input : String
  isLoading : Bool
  selectedPDF : Option String
  readyToChat : Bool
  toastId : Option Nat
  listeners : List Listener
  streams : List StreamState
  toasts : List Toast
  nextToastId : Nat
  posted : List WorkerRequest
deriving Repr

/-- `toast(text)`: create a fresh toast with no progress bar. -/
def addToast (s : State) (text : String) : State :=
  { s with toasts := s.toasts ++ [⟨s.nextToastId, text, none, false⟩],
           nextToastId := s.nextToastId + 1 }

/-- The body of the listener registered by `handlePDFUpload`:
a switch on `e.data.type` with cases `init_progress` (create the progress toast
on first occurrence, storing its id in the `toastId` ref, else update it),
`error` (stop loading, toast the error text), and `complete` (stop loading,
become ready to chat, toast the success text, dismiss the progress toast if the
ref holds one — without resetting the ref). Other tags fall through the switch
and do nothing. -/
def pdfListenerStep (s : State) (e : WorkerEvent) : State :=
  match e with
  | .init_progress p =>
      match s.toastId with
      | none =>
          { s with toasts := s.toasts ++ [⟨s.nextToastId, "Processing PDF...", some p, false⟩],
                   nextToastId := s.nextToastId + 1,
                   toastId := some s.nextToastId }
      | some tid => { s with toasts := updateToastProgress s.toasts tid p }
  | .error m => { (addToast s ("Error: " ++ m)) with isLoading := false }
  | .complete =>
      let s1 := addToast { s with isLoading := false, readyToChat := true }
        "PDF processed. You can now ask questions."
      match s1.toastId with
      | some tid => { s1 with toasts := dismissToast s1.toasts tid }
      | none => s1
  | _ => s

/-- The body of the listener registered by `queryLLM` for stream `k`:
`chunk` enqueues the fragment, `complete` closes the stream, `error` errors the
stream with the message carried by the event; other tags do nothing. It never
touches toasts, messages or the listener registry. -/
def queryListenerStep (s : State) (k : Nat) (e : WorkerEvent) : State :=
  match e with
  | .chunk d => { s with streams := listModify (streamEnqueue d) k s.streams }
  | .complete => { s with streams := listModify streamClose k s.streams }
  | .error m => { s with streams := listModify (streamError m) k s.streams }
  | _ => s

/-- Dispatch of one incoming worker event to one registered listener. -/
def listenerStep (s : State) (l : Listener) (e : WorkerEvent) : State :=
  match l with
  | .pdfUpload => pdfListenerStep s e
  | .query k => queryListenerStep s k e

/-- Delivery of one incoming worker message: the DOM dispatches the event to
every registered listener, in registration order. There is no filtering by
operation id anywhere in the code. -/
def deliver (s : State) (e : WorkerEvent) : State :=
  s.listeners.foldl (fun t l => listenerStep t l e) s

/-- `handlePDFUpload`: with no PDF selected it toasts a notice and returns
without touching the worker; otherwise it sets loading, posts the embed request
and registers a fresh `pdfUpload` listener. -/
def handlePDFUpload (s : State) : State :=
  match s.selectedPDF with
  | none => addToast s "Please select a PDF file."
  | some pdf =>
      { s with isLoading := true,
               posted := s.posted ++ [.embed pdf],
               listeners := s.listeners ++ [.pdfUpload] }

/-- The synchronous part of `handleSendMessage`: the guard
`if (isLoading or empty input) return` rejects silently; otherwise the human
message is appended, the input cleared, loading set, and `queryLLM` posts the
query and registers a fresh `query` listener with a new live stream; the empty
`ai` message is appended behind the human one. The asynchronous reader loop
that fills the `ai` message is modelled by `consume` and `runQuery` below. -/
def handleSendMessage (s : State) : State :=
  if s.isLoading || s.input == "" then s
  else
    let newMessage : ChatWindowMessage := ⟨.human, s.input⟩
    let msgs := s.messages ++ [newMessage]
    { s with messages := msgs ++ [⟨.ai, ""⟩],
             input := "",
             isLoading := true,
             posted := s.posted ++ [.query msgs],
             listeners := s.listeners ++ [.query s.streams.length],
             streams := s.streams ++ [.live []] }

/-- The fragment sequence the reader loop of `handleSendMessage` consumes from
the stream built by `queryLLM`, given the events the worker emits for the
operation, with the reader keeping pace with delivery (each enqueued fragment
is read before the next event arrives, which is how the await-driven loop
behaves). Returns the fragments read in order and the terminal outcome:
`none` when no terminal event arrived yet, `some (Except.ok ())` after
`complete` (the loop breaks), `some (Except.error m)` after `error` (the
pending read rejects and the raised error propagates to the caller —
`handleSendMessage` has no catch clause). Events with tags the `queryLLM`
listener does not test for are skipped. -/
def consume : List WorkerEvent → List String × Option (Except String Unit)
  | [] => ([], none)
  | WorkerEvent.chunk d :: rest =>
      let r := consume rest
      (d :: r.1, r.2)
  | WorkerEvent.complete :: _ => ([], some (Except.ok ()))
  | WorkerEvent.error m :: _ => ([], some (Except.error m))
  | WorkerEvent.init_progress _ :: rest => consume rest
  | WorkerEvent.log _ :: rest => consume rest

/-- End-to-end result of one query operation in `handleSendMessage`: the final
message list (the prior messages, the new human message, and the `ai` message
whose content accumulated `content += value` over the fragments read) and the
terminal outcome of the loop. -/
def runQuery (prior : List ChatWindowMessage) (inp : String)
    (events : List WorkerEvent) :
    List ChatWindowMessage × Option (Except String Unit) :=
  let r := consume events
  (prior ++ [⟨.human, inp⟩, ⟨.ai, String.join r.1⟩], r.2)

/-- An externally visible stimulus to the component: the user submits the PDF
form, the user submits the chat form, or the worker delivers a message. -/
inductive Action where
  | uploadSubmit
  | sendSubmit
  | fromWorker (e : WorkerEvent)

/-- One stimulus step. -/
def step (s : State) : Action → State
  | .uploadSubmit => handlePDFUpload s
  | .sendSubmit => handleSendMessage s
  | .fromWorker e => deliver s e

/-- A run of the component over a list of stimuli. -/
def runActions (s : State) (as : List Action) : State := as.foldl step s

/-- The component state right after mount (the `useEffect` has created the
worker and reset `isLoading`), with a given selected PDF and input text. -/
def mountedState (pdf : Option String) (inp : String) : State :=
  { messages := [], input := inp, isLoading := false, selectedPDF := pdf,
    readyToChat := false, toastId := none, listeners := [], streams := [],
    toasts := [], nextToastId := 0, posted := [] }

/-- How many toasts carry the success text emitted by the `complete` branch of
the `handlePDFUpload` listener. Each delivery of a `complete` event to one such
listener emits exactly one. -/
def processedToastCount (s : State) : Nat :=
  s.toasts.countP fun t => t.text == "PDF processed. You can now ask questions."

/-- The progress value displayed by the toast with the given id, if any. -/
def progressOf (s : State) (tid : Nat) : Option ℚ :=
  match s.toasts.find? (fun t => t.id == tid) with
  | some t => t.progress
  | none => none

/-- The state while an embed operation is in progress: a PDF was selected and
the upload form submitted, so `isLoading` is set and the embed request posted. -/
def embeddingState : State :=
  runActions (mountedState (some "fileA") "Hi") [.uploadSubmit]

/-- A state in the middle of an embed operation whose progress toast (id 0) is
live and currently shows ratio 1. -/
def regressState : State :=
  { mountedState (some "fileA") "" with
      toastId := some 0,
      toasts := [⟨0, "Processing PDF...", some 1, false⟩],
      nextToastId := 1,
      listeners := [.pdfUpload] }

/-- The state after an embed operation that reported progress and completed:
upload submitted, one init_progress event, then complete. -/
def afterEmbedState : State :=
  runActions (mountedState (some "fileA") "Hi")
    [.uploadSubmit, .fromWorker (.init_progress 1)]

/-- The state after a full embed operation (progress reported, completed)
followed by dispatching a query whose first event is an init_progress. -/
def staleSlotState : State :=
  runActions (mountedState (some "fileA") "Hi")
    [.uploadSubmit, .fromWorker (.init_progress 1), .fromWorker .complete,
     .sendSubmit, .fromWorker (.init_progress 1)]

end P0

namespace CW

/-- The request `queryModel` posts in `src/components/ChatWindow.tsx`: the
message list, the model provider, and the model config (base url and
temperature). -/
inductive WorkerRequest where
  | query (messages : List ChatWindowMessage) (modelProvider : String)
      (baseUrl : String) (temperature : ℚ)
deriving DecidableEq, Repr

/-- The component state of the `ChatWindow` in `src/components/ChatWindow.tsx`:
the `useState` values, the `initProgressToastId` ref, whether the worker ref is
initialized, whether `worker.current.onmessage` has been assigned (assignment
replaces any previous handler — this variant does not use `addEventListener`),
the toast registry, posted requests, and a counter of `console.warn` calls
reached through the `default` branch of the event switch. -/
structure State where
  messages : List ChatWindowMessage
  input : String
  isLoading : Bool
  readyToChat : Bool
  selectedPDF : Option String
  modelProvider : String
  initProgressToastId : Option Nat
  toasts : List Toast
  nextToastId : Nat
  posted : List WorkerRequest
  workerReady : Bool
  handlerInstalled : Bool
  consoleWarns : Nat
deriving Repr

/-- `toast(text)` variants (`toast.loading`, `toast.success`, `toast.error`):
create a fresh toast with no progress bar. -/
def addToast (s : State) (text : String) : State :=
  { s with toasts := s.toasts ++ [⟨s.nextToastId, text, none, false⟩],
           nextToastId := s.nextToastId + 1 }

/-- The `onmessage` handler assigned by `queryModel`: a switch on the `type`
field with cases `log` (console only), `init_progress` (create the loading
toast on first occurrence, else update its progress), `complete` (ready to
chat, stop loading, dismiss the progress toast, success toast), `error`
(error toast), and a `default` branch that only warns. There is no `chunk`
case, and no branch touches the `messages` state. -/
def onMessage (s : State) (e : WorkerEvent) : State :=
  match e with
  | .log _ => s
  | .init_progress p =>
      match s.initProgressToastId with
      | none =>
          { s with toasts := s.toasts ++ [⟨s.nextToastId, "Loading model weights...", none, false⟩],
                   nextToastId := s.nextToastId + 1,
                   initProgressToastId := some s.nextToastId }
      | some tid => { s with toasts := updateToastProgress s.toasts tid p }
  | .complete =>
      let s1 := { s with readyToChat := true, isLoading := false }
      let s2 :=
        match s1.initProgressToastId with
        | some tid => { s1 with toasts := dismissToast s1.toasts tid }
        | none => { s1 with toasts := dismissAllToasts s1.toasts }
      addToast s2 "Model ready!"
  | .error m => addToast s ("Error: " ++ m)
  | .chunk _ => { s with consoleWarns := s.consoleWarns + 1 }

/-- `sendMessage`: the guard `if (no input or isLoading) return` rejects
silently; otherwise the human message is appended, the input cleared and
`queryModel` is awaited inside try/catch/finally. `queryModel` throws when the
worker ref is null (caught and toasted); otherwise it posts the payload and
assigns the `onmessage` handler. `queryModel` contains no suspension point, so
the `finally` clause has reset `isLoading` by the time `sendMessage` settles;
the state recorded here is that net effect. -/
def sendMessage (s : State) : State :=
  if s.input == "" || s.isLoading then s
  else
    let userMessage : ChatWindowMessage := ⟨.human, s.input⟩
    let newMessages := s.messages ++ [userMessage]
    let s1 := { s with messages := newMessages, input := "" }
    if s.workerReady then
      { s1 with posted := s1.posted ++
                  [.query newMessages s.modelProvider "http://localhost:11435" (3 / 10)],
                handlerInstalled := true,
                isLoading := false }
    else
      { (addToast s1 "Message send failed: Error: Worker not initialized.") with
          isLoading := false }

/-- The identifiers in scope inside the `ChatWindow` component of
`src/components/ChatWindow.tsx` when its JSX click handlers run: the module
imports, the module-level declarations, and every binding introduced in the
component body. Transcribed from the source. -/
def chatWindowScopeIdentifiers : List String :=
  ["useRef", "useState", "useEffect", "useSearchParams", "ToastContainer",
   "toast", "ChatMessageBubble", "MobileWarningOverlay", "modelInfo",
   "ChatWindow", "placeholder", "searchParams", "presetProvider",
   "initialProvider", "modelProvider", "setModelProvider", "messages",
   "setMessages", "input", "setInput", "isLoading", "setIsLoading",
   "selectedPDF", "setSelectedPDF", "readyToChat", "setReadyToChat",
   "worker", "initProgressToastId", "handleModelChange", "queryModel",
   "sendMessage", "choosePDFComponent"]

/-- The identifier the Embed PDF button click handler calls:
`onClick = () => embedPDF()` in `choosePDFComponent`. -/
def embedButtonHandlerCallee : String := "embedPDF"

/-- Outcome of running a click handler: either the named function was resolved
and invoked, or resolution failed and a ReferenceError was raised before any
other effect. -/
inductive ClickOutcome where
  | invoked (name : String)
  | referenceError (name : String)
deriving DecidableEq, Repr

/-- Clicking the Embed PDF button: JavaScript resolves the free identifier
`embedPDF` against the enclosing scopes; an unresolved identifier raises a
ReferenceError at call time, before any message could be posted, so the state
is returned unchanged in that case. -/
def clickEmbedPDF (s : State) : ClickOutcome × State :=
  if chatWindowScopeIdentifiers.contains embedButtonHandlerCallee then
    (.invoked embedButtonHandlerCallee, s)
  else
    (.referenceError embedButtonHandlerCallee, s)

/-- The component state after mount and a completed model load, ready to chat,
with input text typed. -/
def cwMounted : State :=
  { messages := [], input := "Hi", isLoading := false, readyToChat := true,
    selectedPDF := none, modelProvider := "ollama", initProgressToastId := none,
    toasts := [], nextToastId := 0, posted := [], workerReady := true,
    handlerInstalled := false, consoleWarns := 0 }

end CW

theorem consume_chunks_complete (cs : List String) :
    P0.consume (cs.map WorkerEvent.chunk ++ [WorkerEvent.complete])
      = (cs, some (Except.ok ())) := by
  induction cs with
  | nil => rfl
  | cons c rest ih => simp [P0.consume, ih]

theorem consume_chunks_error (cs : List String) (m : String) :
    P0.consume (cs.map WorkerEvent.chunk ++ [WorkerEvent.error m])
      = (cs, some (Except.error m)) := by
  induction cs with
  | nil => rfl
  | cons c rest ih => simp [P0.consume, ih]

/-- Claim C1: when the worker emits a finite sequence of chunk events followed
by complete for one query operation, the content of the ai message appended by
`handleSendMessage` is exactly the ordered concatenation of the chunk payloads
(no gaps, reordering or duplication), and the read loop ends normally. -/
theorem chunk_concat_assembles_ai_message (prior : List ChatWindowMessage)
    (inp : String) (cs : List String) :
    P0.runQuery prior inp (cs.map WorkerEvent.chunk ++ [WorkerEvent.complete])
      = (prior ++ [⟨Role.human, inp⟩, ⟨Role.ai, String.join cs⟩],
         some (Except.ok ())) := by
  simp [P0.runQuery, consume_chunks_complete]

/-- Claim C4, counterexample to the claim as stated: dispatching a query and
receiving chunk "Par" then error "backend crashed" does retain the ai content
"Par" and does propagate the message to the caller, but nothing at all is
surfaced to the user: the toast registry stays empty after the whole exchange
(neither `queryLLM` nor `handleSendMessage` contains any error surface, and no
Failed state exists in the component), contradicting the final conjunct of the
claim. -/
theorem error_not_surfaced_ce :
    (P0.runActions (P0.mountedState none "Tell me about it")
        [.sendSubmit, .fromWorker (.chunk "Par"),
         .fromWorker (.error "backend crashed")]).toasts = []
    ∧ P0.runQuery [] "Tell me about it"
        [.chunk "Par", .error "backend crashed"]
      = ([⟨Role.human, "Tell me about it"⟩, ⟨Role.ai, "Par"⟩],
         some (Except.error "backend crashed")) := by
  constructor <;> rfl

/-- Claim C4, amended: when the worker emits chunk events followed by an error
event carrying message m, the read loop rejects with m — which propagates to
the caller uncaught, since `handleSendMessage` has no catch clause — and the ai
message retains the content accumulated from the chunks already read; however
the error branch of the `queryLLM` listener adds no toast, so m is not surfaced
to the user and there is no Failed state in this component. -/
theorem error_propagates_content_retained (prior : List ChatWindowMessage)
    (inp m : String) (cs : List String) :
    P0.runQuery prior inp (cs.map WorkerEvent.chunk ++ [WorkerEvent.error m])
      = (prior ++ [⟨Role.human, inp⟩, ⟨Role.ai, String.join cs⟩],
         some (Except.error m))
    ∧ ∀ (s : P0.State) (k : Nat),
        (P0.queryListenerStep s k (WorkerEvent.error m)).toasts = s.toasts := by
  constructor
  · simp [P0.runQuery, consume_chunks_error]
  · intro s k
    simp [P0.queryListenerStep]

theorem listenerStep_listeners (s : P0.State) (l : P0.Listener)
    (e : WorkerEvent) : (P0.listenerStep s l e).listeners = s.listeners := by
  cases l with
  | pdfUpload =>
    cases e with
    | init_progress p =>
        cases h : s.toastId <;>
          simp [P0.listenerStep, P0.pdfListenerStep, h]
    | complete =>
        cases h : s.toastId <;>
          simp [P0.listenerStep, P0.pdfListenerStep, P0.addToast, h]
    | error m => simp [P0.listenerStep, P0.pdfListenerStep, P0.addToast]
    | chunk d => simp [P0.listenerStep, P0.pdfListenerStep]
    | log d => simp [P0.listenerStep, P0.pdfListenerStep]
  | query k =>
    cases e <;> simp [P0.listenerStep, P0.queryListenerStep]

theorem foldl_listenerStep_listeners (ls : List P0.Listener) (s : P0.State)
    (e : WorkerEvent) :
    ((ls.foldl (fun t l => P0.listenerStep t l e) s)).listeners
      = s.listeners := by
  induction ls generalizing s with
  | nil => rfl
  | cons l rest ih =>
      rw [List.foldl_cons, ih, listenerStep_listeners]

/-- Claim C2, amended: no subscription is ever removed. The code contains no
removeEventListener call: processing any incoming worker event — terminal or
not — leaves the listener registry exactly as it was, so the subscription
registered for an operation is still registered after its terminal event, and
any later event is still dispatched to it. -/
theorem subscription_never_removed (s : P0.State) (e : WorkerEvent) :
    (P0.deliver s e).listeners = s.listeners := by
  simpa [P0.deliver] using foldl_listenerStep_listeners s.listeners s e

/-- Claim C2, counterexample to the claim as stated: select a PDF, submit the
upload form, then let the worker emit complete twice. At the first complete
(the terminal event) the subscription is not removed — the registry still holds
the upload listener — and the second, post-terminal event is still delivered to
it: it runs its complete branch again, so the "PDF processed" toast is emitted
twice. -/
theorem subscription_persists_after_complete_ce :
    (P0.runActions (P0.mountedState (some "fileA") "")
        [.uploadSubmit, .fromWorker .complete, .fromWorker .complete]).listeners
      = [P0.Listener.pdfUpload]
    ∧ P0.processedToastCount (P0.runActions (P0.mountedState (some "fileA") "")
        [.uploadSubmit, .fromWorker .complete, .fromWorker .complete]) = 2 := by
  constructor <;> rfl

theorem countP_text_dismissToast (ts : List Toast) (tid : Nat) (q : String) :
    (dismissToast ts tid).countP (fun t => t.text == q)
      = ts.countP (fun t => t.text == q) := by
  induction ts with
  | nil => rfl
  | cons h tl ih =>
      have hg : (if h.id == tid then { h with dismissed := true } else h).text
          = h.text := by
        by_cases hc : (h.id == tid) = true <;> simp [hc]
      simp only [dismissToast] at ih
      simp only [dismissToast, List.map_cons, List.countP_cons, ih, hg]

theorem listenerStep_complete_processed (s : P0.State) (l : P0.Listener) :
    P0.processedToastCount (P0.listenerStep s l .complete)
      = P0.processedToastCount s
        + (if l = P0.Listener.pdfUpload then 1 else 0) := by
  cases l with
  | pdfUpload =>
      cases h : s.toastId with
      | none =>
          simp [P0.listenerStep, P0.pdfListenerStep, P0.processedToastCount,
            P0.addToast, h, List.countP_append]
      | some tid =>
          simp [P0.listenerStep, P0.pdfListenerStep, P0.processedToastCount,
            P0.addToast, h, List.countP_append, countP_text_dismissToast]
  | query k =>
      simp [P0.listenerStep, P0.queryListenerStep, P0.processedToastCount]

theorem foldl_complete_processed (ls : List P0.Listener) (s : P0.State) :
    P0.processedToastCount
        (ls.foldl (fun t l => P0.listenerStep t l .complete) s)
      = P0.processedToastCount s
        + ls.countP (fun l => l == P0.Listener.pdfUpload) := by
  induction ls generalizing s with
  | nil => simp
  | cons l rest ih =>
      rw [List.foldl_cons, ih, listenerStep_complete_processed, List.countP_cons]
      by_cases hl : l = P0.Listener.pdfUpload <;> simp [hl]
      all_goals omega

/-- Claim C3, amended: an incoming Complete event is not routed to the
subscriber of the currently active operation only; it is dispatched to every
listener ever registered, and each still-registered upload listener runs its
complete branch — one success toast per registered upload listener — so events
do reach the subscribers of superseded or terminated operations instead of
being discarded. -/
theorem complete_broadcast_to_all_upload_listeners (s : P0.State) :
    P0.processedToastCount (P0.deliver s .complete)
      = P0.processedToastCount s
        + s.listeners.countP (fun l => l == P0.Listener.pdfUpload) := by
  simpa [P0.deliver] using foldl_complete_processed s.listeners s

/-- Claim C3, counterexample to the claim as stated: embed a PDF to completion,
then dispatch a query and let it stream and complete. The final Complete event
belongs to the query operation, yet it is also delivered to the upload listener
of the embed operation that terminated earlier — that listener runs its
complete branch a second time, so two success toasts exist, and both listeners
are still registered. -/
theorem event_delivered_to_terminated_subscriber_ce :
    (P0.runActions (P0.mountedState (some "fileA") "Hi")
        [.uploadSubmit, .fromWorker .complete, .sendSubmit,
         .fromWorker (.chunk "Hel"), .fromWorker .complete]).listeners
      = [P0.Listener.pdfUpload, P0.Listener.query 0]
    ∧ P0.processedToastCount (P0.runActions (P0.mountedState (some "fileA") "Hi")
        [.uploadSubmit, .fromWorker .complete, .sendSubmit,
         .fromWorker (.chunk "Hel"), .fromWorker .complete]) = 2 := by
  constructor <;> rfl

/-- Claim C5: submitting the upload form with no document selected fails
immediately and synchronously — a user-visible notice is toasted — while no
request of any kind is posted to the worker, no listener is registered, and the
operation state is untouched (`isLoading` and `readyToChat` keep their values,
so the component stays idle). -/
theorem embed_without_document_rejected (s : P0.State)
    (h : s.selectedPDF = none) :
    (P0.handlePDFUpload s).posted = s.posted
    ∧ (P0.handlePDFUpload s).listeners = s.listeners
    ∧ (P0.handlePDFUpload s).isLoading = s.isLoading
    ∧ (P0.handlePDFUpload s).readyToChat = s.readyToChat
    ∧ (P0.handlePDFUpload s).toasts
        = s.toasts ++ [⟨s.nextToastId, "Please select a PDF file.", none, false⟩] := by
  simp [P0.handlePDFUpload, h, P0.addToast]

theorem embed_without_document_rejected_witness :
    (P0.mountedState none "").selectedPDF = none
    ∧ ((P0.handlePDFUpload (P0.mountedState none "")).posted
         = (P0.mountedState none "").posted
       ∧ (P0.handlePDFUpload (P0.mountedState none "")).listeners
         = (P0.mountedState none "").listeners
       ∧ (P0.handlePDFUpload (P0.mountedState none "")).isLoading
         = (P0.mountedState none "").isLoading
       ∧ (P0.handlePDFUpload (P0.mountedState none "")).readyToChat
         = (P0.mountedState none "").readyToChat
       ∧ (P0.handlePDFUpload (P0.mountedState none "")).toasts
         = (P0.mountedState none "").toasts
           ++ [⟨(P0.mountedState none "").nextToastId,
                "Please select a PDF file.", none, false⟩]) :=
  ⟨rfl, embed_without_document_rejected (P0.mountedState none "") rfl⟩

/-- Claim C6, amended: an attempt to dispatch a query while an operation is
still in progress is ignored silently: the guard returns before anything
happens, so the state is completely unchanged — zero messages are posted to the
worker, but no InputError or any other notice is surfaced either. -/
theorem query_during_embedding_silently_ignored (s : P0.State)
    (h : s.isLoading = true) : P0.handleSendMessage s = s := by
  simp [P0.handleSendMessage, h]

theorem query_during_embedding_silently_ignored_witness :
    P0.embeddingState.isLoading = true
    ∧ P0.handleSendMessage P0.embeddingState = P0.embeddingState :=
  ⟨rfl, query_during_embedding_silently_ignored P0.embeddingState rfl⟩

/-- Claim C6, counterexample to the claim as stated: in the state reached by
submitting an embed (so the component is loading), submitting the chat form
posts nothing — that part of the claim holds — but it also produces no
InputError: the handler returns with the toast registry exactly as it was
(empty), so nothing is surfaced to the user. -/
theorem query_during_embedding_no_input_error_ce :
    (P0.handleSendMessage P0.embeddingState).toasts = []
    ∧ (P0.handleSendMessage P0.embeddingState).posted
        = P0.embeddingState.posted := by
  constructor <;> rfl

theorem find_updateToastProgress (ts : List Toast) (tid : Nat) (p : ℚ)
    (t0 : Toast) (hf : ts.find? (fun t => t.id == tid) = some t0)
    (hd : t0.dismissed = false) :
    (updateToastProgress ts tid p).find? (fun t => t.id == tid)
      = some { t0 with progress := some p } := by
  induction ts with
  | nil => simp [List.find?] at hf
  | cons h tl ih =>
      by_cases hc : (h.id == tid) = true
      · simp only [List.find?, hc] at hf
        injection hf with hf
        subst hf
        simp [updateToastProgress, List.find?, hc, hd]
      · have hcf : (h.id == tid) = false := by simpa using hc
        simp only [List.find?, hcf] at hf
        simpa [updateToastProgress, List.find?, hcf] using ih hf

/-- Claim C7, amended: the progress slot is not monotone. The init_progress
branch applies every incoming ratio to the toast unconditionally, so a ratio
lower than the last observed value is not ignored: the displayed ratio changes
from the old value q to the new lower value p. -/
theorem lower_ratio_overwrites_progress (s : P0.State) (tid : Nat)
    (t0 : Toast) (p q : ℚ)
    (h1 : s.toastId = some tid)
    (h2 : s.toasts.find? (fun t => t.id == tid) = some t0)
    (h3 : t0.dismissed = false)
    (h4 : t0.progress = some q)
    (h5 : p < q) :
    P0.progressOf s tid = some q
    ∧ P0.progressOf (P0.pdfListenerStep s (.init_progress p)) tid = some p
    ∧ p < q := by
  refine ⟨?_, ?_, h5⟩
  · simp [P0.progressOf, h2, h4]
  · simp [P0.pdfListenerStep, h1, P0.progressOf,
      find_updateToastProgress s.toasts tid p t0 h2 h3]

theorem lower_ratio_overwrites_progress_witness :
    P0.regressState.toastId = some 0
    ∧ (0 : ℚ) < 1
    ∧ (P0.progressOf P0.regressState 0 = some 1
       ∧ P0.progressOf (P0.pdfListenerStep P0.regressState (.init_progress 0)) 0
           = some 0
       ∧ (0 : ℚ) < 1) :=
  ⟨rfl, by norm_num,
   lower_ratio_overwrites_progress P0.regressState 0
     ⟨0, "Processing PDF...", some 1, false⟩ 0 1 rfl rfl rfl rfl (by norm_num)⟩

/-- Claim C7, counterexample to the claim as stated: submit an upload, let the
worker report progress 1 and then progress 0. The second, lower ratio is not
ignored — the displayed ratio of the progress toast becomes 0, not the previous
value 1. -/
theorem progress_regression_ce :
    P0.progressOf (P0.runActions (P0.mountedState (some "fileA") "")
        [.uploadSubmit, .fromWorker (.init_progress 1),
         .fromWorker (.init_progress 0)]) 0 = some 0
    ∧ ((0 : ℚ) = 1 → False) := by
  constructor
  · rfl
  · intro h
    exact absurd h (by norm_num)

/-- Claim C8, amended: on a terminal Complete event the progress toast is
dismissed but the slot reference is NOT cleared — the `toastId` ref keeps the
old id — and on an Error event the slot is neither dismissed nor cleared; an
init_progress event arriving while the ref is set (in particular the first one
of the next operation, since the same listener stays registered) therefore
takes the update path against the stale id and creates no new slot: the toast
registry gains no entry. -/
theorem slot_reference_survives_terminal (s : P0.State) (tid : Nat) (p : ℚ)
    (m : String) (h1 : s.toastId = some tid) :
    (P0.pdfListenerStep s .complete).toastId = some tid
    ∧ (P0.pdfListenerStep s (.init_progress p)).toasts.length = s.toasts.length
    ∧ (P0.pdfListenerStep s (.error m)).toastId = some tid := by
  refine ⟨?_, ?_, ?_⟩
  · simp [P0.pdfListenerStep, P0.addToast, h1]
  · simp [P0.pdfListenerStep, h1, updateToastProgress]
  · simp [P0.pdfListenerStep, P0.addToast, h1]

theorem slot_reference_survives_terminal_witness :
    P0.afterEmbedState.toastId = some 0
    ∧ ((P0.pdfListenerStep P0.afterEmbedState .complete).toastId = some 0
       ∧ (P0.pdfListenerStep P0.afterEmbedState (.init_progress 1)).toasts.length
           = P0.afterEmbedState.toasts.length
       ∧ (P0.pdfListenerStep P0.afterEmbedState (.error "boom")).toastId
           = some 0) :=
  ⟨rfl, slot_reference_survives_terminal P0.afterEmbedState 0 1 "boom" rfl⟩

/-- Claim C8, counterexample to the claim as stated: run an embed operation to
its terminal event (progress reported, then complete), then dispatch a query
and let its first init_progress event arrive. The slot was not cleared: the
`toastId` ref still holds the old toast id 0, and no new progress slot is
created for the new operation — the toast registry still holds exactly the two
toasts of the embed operation (the dismissed progress toast and the success
toast). -/
theorem stale_slot_not_recreated_ce :
    P0.staleSlotState.toastId = some 0
    ∧ P0.staleSlotState.toasts.length = 2 := by
  constructor <;> rfl

/-- Claim C9: the Embed PDF button of `src/components/ChatWindow.tsx` invokes
the identifier embedPDF, which is not among the identifiers defined or imported
anywhere in scope of the component, so every click raises a ReferenceError
before any effect takes place: the component state — in particular the list of
requests posted to the worker — is unchanged, and an embed operation can never
be dispatched through that interface. -/
theorem embed_button_reference_error (s : CW.State) :
    CW.clickEmbedPDF s = (CW.ClickOutcome.referenceError "embedPDF", s) := rfl

theorem onMessage_messages (s : CW.State) (e : WorkerEvent) :
    (CW.onMessage s e).messages = s.messages := by
  cases e with
  | log d => rfl
  | init_progress p =>
      cases h : s.initProgressToastId <;> simp [CW.onMessage, h]
  | complete =>
      cases h : s.initProgressToastId <;> simp [CW.onMessage, CW.addToast, h]
  | error m => simp [CW.onMessage, CW.addToast]
  | chunk d => rfl

theorem foldl_onMessage_messages (events : List WorkerEvent) (s : CW.State) :
    (events.foldl CW.onMessage s).messages = s.messages := by
  induction events generalizing s with
  | nil => rfl
  | cons e rest ih => rw [List.foldl_cons, ih, onMessage_messages]

/-- Claim C10: the onmessage handler installed by queryModel in
`src/components/ChatWindow.tsx` never touches the message list — it has
branches only for log, init_progress, complete and error, and a chunk event
falls into the default branch (a console warning) — so after a query is
dispatched through sendMessage the rendered message list holds exactly the
prior messages plus the new human message, and gains no ai response no matter
which and how many events the worker emits. -/
theorem query_yields_no_ai_message (s : CW.State) (events : List WorkerEvent)
    (h1 : s.input ≠ "") (h2 : s.isLoading = false) :
    (events.foldl CW.onMessage (CW.sendMessage s)).messages
      = s.messages ++ [⟨Role.human, s.input⟩] := by
  rw [foldl_onMessage_messages]
  have hb : (s.input == "") = false := by simpa using h1
  cases hw : s.workerReady <;>
    simp [CW.sendMessage, hb, h2, hw, CW.addToast]

theorem query_yields_no_ai_message_witness :
    CW.cwMounted.input ≠ ""
    ∧ CW.cwMounted.isLoading = false
    ∧ ([WorkerEvent.chunk "Hel", WorkerEvent.chunk "lo",
        WorkerEvent.complete].foldl CW.onMessage
          (CW.sendMessage CW.cwMounted)).messages
        = CW.cwMounted.messages ++ [⟨Role.human, CW.cwMounted.input⟩] :=
  ⟨by decide, rfl,
   query_yields_no_ai_message CW.cwMounted
     [WorkerEvent.chunk "Hel", WorkerEvent.chunk "lo", WorkerEvent.complete]
     (by decide) rfl⟩
